import Mathlib

/-!
Shallow embedding of the EPL notes analysis engine (pandas-based Python
source: `src/api/main.py`, `src/scripts/analysis_statistics.py`,
`src/scripts/ranking_students.py`).

Modelling conventions:
* a DataFrame is a `List GradeRecord`; a nullable numeric column is
  `List (Option ℚ)` (pandas `NaN` is `none`);
* pandas `Series.mean()` skips nulls and is `NaN` on an all-null series;
  `Series.std()` (ddof = 1) is `NaN` for fewer than two non-null values;
  `(s >= 10)` maps `NaN` to `False`, so `.mean()` of that boolean series
  divides by the total row count;
* `groupby` group keys are the distinct key tuples (`List.dedup`); pandas
  emits groups sorted by key, but no claim proved below depends on the
  order in which groups are listed;
* `rank(ascending=False, method="dense")` gives `1 +` the number of
  strictly greater distinct values; `.astype(int)` raises on `NaN`,
  modelled by an `Option`-valued pipeline returning `none`;
* pandas `sort_values` is modelled by a structural insertion sort
  (`sortBy`); the claims below never depend on the order of rows whose
  sort keys are equal.
-/

namespace EplNotes

/-- A calendar date as Python's `datetime` exposes it: `year`, `month`,
`day` integer components. -/
structure PyDate where
  year : ℤ
  month : ℕ
  day : ℕ
  deriving DecidableEq

/-- One row of the `notes_epl.csv` table after ingestion: the grade of one
student for one course unit (UE). `note` is `none` when the score is
missing/unparsable (pandas `NaN`). -/
structure GradeRecord where
  student_id : String
  nom : String
  prenom : String
  sexe : String
  date_naissance : PyDate
  departement : String
  filiere : String
  niveau : String
  ue : String
  enseignant : String
  note : Option ℚ
  deriving DecidableEq

/-- The non-null values of a nullable series, in order (what pandas keeps
when it skips `NaN`). -/
def nonNull : List (Option ℚ) → List ℚ
  | [] => []
  | none :: xs => nonNull xs
  | some v :: xs => v :: nonNull xs

/-- `Series.mean()`: mean of the non-null values, `NaN` (here `none`) when
all values are null or the series is empty. -/
def seriesMean (xs : List (Option ℚ)) : Option ℚ :=
  if (nonNull xs).length = 0 then none
  else some ((nonNull xs).sum / ((nonNull xs).length : ℚ))

/-- The boolean `note >= 10` of pandas: `NaN >= 10` is `False`. -/
def isPass (x : Option ℚ) : Bool :=
  match x with
  | some v => decide (10 ≤ v)
  | none => false

/-- The `(x >= 10).mean() * 100` expression used for `taux_reussite`
throughout the source: the count of non-null scores `≥ 10` divided by the
TOTAL length of the series (nulls included), times 100. The mean of an
empty boolean series is `NaN` (`none`). -/
def passRate (xs : List (Option ℚ)) : Option ℚ :=
  if xs.length = 0 then none
  else some (100 * (xs.countP isPass : ℚ) / (xs.length : ℚ))

/-- `Series.std()` with the default `ddof = 1`, modelled up to the final
square root: this returns the sample variance (N−1 denominator) of the
non-null values, and `none` when fewer than two non-null values exist.
The code's standard deviation is the square root of this quantity and is
null exactly when this is null; no claim below depends on the numeric
value of the standard deviation, only on its nullness. -/
def seriesVarSample (xs : List (Option ℚ)) : Option ℚ :=
  let ys := nonNull xs
  if ys.length < 2 then none
  else
    let m := ys.sum / (ys.length : ℚ)
    some ((ys.map (fun y => (y - m) ^ 2)).sum / ((ys.length : ℚ) - 1))

/-- Insert into a sorted list, first position where `le` holds. -/
def insertBy {α : Type} (le : α → α → Bool) (a : α) : List α → List α
  | [] => [a]
  | b :: bs => if le a b then a :: b :: bs else b :: insertBy le a bs

/-- Insertion sort used to model pandas `sort_values` (claims below never
depend on the relative order of rows with equal sort keys). -/
def sortBy {α : Type} (le : α → α → Bool) : List α → List α
  | [] => []
  | a :: as => insertBy le a (sortBy le as)

/-- `Series.median()`: sort the non-null values; the middle value, or the
average of the two middle values for an even count; `NaN` when no
non-null value exists. -/
def seriesMedian (xs : List (Option ℚ)) : Option ℚ :=
  let ys := sortBy (fun a b => decide (a ≤ b)) (nonNull xs)
  if ys.length = 0 then none
  else if ys.length % 2 = 1 then some (ys.getD (ys.length / 2) 0)
  else some ((ys.getD (ys.length / 2 - 1) 0 + ys.getD (ys.length / 2) 0) / 2)

/-- Python tuple comparison `(a1, a2) < (b1, b2)`: lexicographic. -/
def monthDayLt (a b : ℕ × ℕ) : Bool :=
  decide (a.1 < b.1) || (decide (a.1 = b.1) && decide (a.2 < b.2))

/-- The age formula of `load_data` / `load_and_prepare_data`:
`today.year - d.year - ((today.month, today.day) < (d.month, d.day))`,
with the Python boolean coerced to `1` or `0`. -/
def computeAge (today d : PyDate) : ℤ :=
  today.year - d.year -
    (if monthDayLt (today.month, today.day) (d.month, d.day) then 1 else 0)

/-- The fixed reference date `datetime(2025, 9, 1)` hard-coded in both
loaders. -/
def referenceDate : PyDate := ⟨2025, 9, 1⟩

/-- The derived `age` column. -/
def ageOf (d : PyDate) : ℤ := computeAge referenceDate d

/-- `pd.cut(v, bins, labels)` with the default `right=True` and
`include_lowest=False`: walk the consecutive bin edges; `v` lands in the
band `(lo, hi]`; outside every band the result is `NaN` (`none`). -/
def cut : List ℤ → List String → ℤ → Option String
  | lo :: hi :: bs, lab :: labs, v =>
      if lo < v ∧ v ≤ hi then some lab else cut (hi :: bs) labs v
  | _, _, _ => none

/-- The age-band edges `bins=[17, 20, 23, 26, 30]` of `stats_tranche_age`
and `stats_par_tranche_age`. -/
def ageBins : List ℤ := [17, 20, 23, 26, 30]

/-- The labels `["18-20", "21-23", "24-26", "27+"]` paired with
`ageBins`. -/
def ageLabels : List String := ["18-20", "21-23", "24-26", "27+"]

/-- The derived `tranche_age` column: `pd.cut` of the (possibly null) age
over `ageBins`/`ageLabels`. -/
def trancheAge (a : Option ℤ) : Option String :=
  match a with
  | none => none
  | some v => cut ageBins ageLabels v

/-- The number of distinct values in `scores` strictly greater than `s` —
the quantity pandas dense rank (descending) adds to 1. -/
def cntGreaterDistinct (scores : List ℚ) (s : ℚ) : ℕ :=
  (scores.toFinset.filter (fun v => s < v)).card

/-- `Series.rank(ascending=False, method="dense")` over a series of
(non-null) scores: each score gets `1 +` the number of strictly greater
distinct values. -/
def denseRankDesc (scores : List ℚ) : List ℕ :=
  scores.map (fun s => 1 + cntGreaterDistinct scores s)

/-- The nullable `note` column of a (filtered) DataFrame. -/
def notesOf (df : List GradeRecord) : List (Option ℚ) :=
  df.map (fun r => r.note)

/-- The row filter `df[df["enseignant"] == e]`. -/
def filterEnseignant (df : List GradeRecord) (e : String) : List GradeRecord :=
  df.filter (fun r => r.enseignant = e)

/-- The response dictionary of the `/stats/enseignant` endpoint
(`stats_enseignant` in `src/api/main.py`). The endpoint performs no
zero-row check: this is always a statistics payload, there is no error
shape. `ecart_type` holds `seriesVarSample` (see its docstring). -/
structure TeacherStats where
  enseignant : String
  moyenne : Option ℚ
  ecart_type : Option ℚ
  taux_reussite : Option ℚ
  nombre_notes : ℕ
  deriving DecidableEq

/-- `stats_enseignant` of `src/api/main.py` (lines 109–120): filter on the
teacher, then mean / std / pass rate of the `note` column plus
`len(data)`. -/
def statsEnseignant (df : List GradeRecord) (e : String) : TeacherStats :=
  let data := filterEnseignant df e
  { enseignant := e
    moyenne := seriesMean (notesOf data)
    ecart_type := seriesVarSample (notesOf data)
    taux_reussite := passRate (notesOf data)
    nombre_notes := data.length }

/-- The response dictionary of the `/stats/ue` endpoint (`stats_ue` in
`src/api/main.py`), which likewise performs no zero-row check. -/
structure UeStats where
  ue : String
  moyenne : Option ℚ
  ecart_type : Option ℚ
  taux_reussite : Option ℚ
  deriving DecidableEq

/-- `stats_ue` of `src/api/main.py`: filter on the UE, then mean / std /
pass rate of the `note` column. -/
def statsUe (df : List GradeRecord) (u : String) : UeStats :=
  let data := df.filter (fun r => r.ue = u)
  { ue := u
    moyenne := seriesMean (notesOf data)
    ecart_type := seriesVarSample (notesOf data)
    taux_reussite := passRate (notesOf data) }

/-- The distinct departments, the group keys of
`df.groupby("departement")`. Pandas lists groups sorted by key; no claim
below depends on the listing order. -/
def deptList (df : List GradeRecord) : List String :=
  (df.map (fun r => r.departement)).dedup

/-- The `note` series of one department group. -/
def deptNotes (df : List GradeRecord) (d : String) : List (Option ℚ) :=
  notesOf (df.filter (fun r => r.departement = d))

/-- One output row of `stats_departement` / `stats_par_departement`.
`ecart_type` holds `seriesVarSample` (see its docstring). -/
structure DeptStats where
  departement : String
  moyenne : Option ℚ
  mediane : Option ℚ
  ecart_type : Option ℚ
  taux_reussite : Option ℚ
  deriving DecidableEq

/-- `stats_departement` of `src/api/main.py` (lines 93–106) and
`stats_par_departement` of `src/scripts/analysis_statistics.py`
(lines 51–58): per-department mean, median, std and
`(x >= 10).mean() * 100`. -/
def statsDepartement (df : List GradeRecord) : List DeptStats :=
  (deptList df).map (fun d =>
    { departement := d
      moyenne := seriesMean (deptNotes df d)
      mediane := seriesMedian (deptNotes df d)
      ecart_type := seriesVarSample (deptNotes df d)
      taux_reussite := passRate (deptNotes df d) })

/-- The `informations` block of the `/etudiant/{student_id}` response:
the non-grade columns of the student's first row. -/
structure EtudiantInfo where
  nom : String
  prenom : String
  sexe : String
  date_naissance : PyDate
  departement : String
  filiere : String
  niveau : String
  deriving DecidableEq

/-- Python's `round(x, 2)` on an exact rational: round `x * 100` to the
nearest integer, ties to even, then divide by 100. -/
def round2 (q : ℚ) : ℚ :=
  let x := q * 100
  let f : ℤ := ⌊x⌋
  let r := x - (f : ℚ)
  let n : ℤ :=
    if r < 1 / 2 then f
    else if 1 / 2 < r then f + 1
    else if f % 2 = 0 then f else f + 1
  (n : ℚ) / 100

/-- The per-UE breakdown `data.groupby("ue")["note"].agg(["mean",
"count"])` of `get_etudiant`: per distinct UE, the null-skipping mean and
the pandas `count` aggregate, which counts the NON-null values. -/
def notesParUe (data : List GradeRecord) : List (String × Option ℚ × ℕ) :=
  ((data.map (fun r => r.ue)).dedup).map (fun u =>
    let xs := notesOf (data.filter (fun r => r.ue = u))
    (u, seriesMean xs, (nonNull xs).length))

/-- The response of the `/etudiant/{student_id}` endpoint: either the
`{"error": ...}` dictionary or the full payload. -/
inductive EtudiantResult where
  | error (msg : String)
  | found (student_id : String) (informations : EtudiantInfo)
      (moyenne_generale : Option ℚ) (nombre_total_notes : ℕ)
      (notes_par_ue : List (String × Option ℚ × ℕ))
  deriving DecidableEq

/-- `get_etudiant` of `src/api/main.py` (lines 309–331): filter on the
student id; on zero rows return the structured error dictionary
`{"error": f"Étudiant {student_id} non trouvé"}`, otherwise the detail
payload (overall mean rounded to 2 decimals, total row count including
null notes, per-UE breakdown). -/
def getEtudiant (df : List GradeRecord) (sid : String) : EtudiantResult :=
  let data := df.filter (fun r => r.student_id = sid)
  match data with
  | [] => .error ("Étudiant " ++ sid ++ " non trouvé")
  | r :: _ =>
      .found sid
        ⟨r.nom, r.prenom, r.sexe, r.date_naissance, r.departement,
          r.filiere, r.niveau⟩
        ((seriesMean (notesOf data)).map round2)
        data.length
        (notesParUe data)

/-- The grouping key of `classement_general` / `classement_top`:
`["student_id", "nom", "prenom", "departement", "filiere", "niveau"]`. -/
def entityKey (r : GradeRecord) :
    String × String × String × String × String × String :=
  (r.student_id, r.nom, r.prenom, r.departement, r.filiere, r.niveau)

/-- The distinct leaderboard entities (group keys) of the general
leaderboard. -/
def entitiesG (df : List GradeRecord) :
    List (String × String × String × String × String × String) :=
  (df.map entityKey).dedup

/-- The `note` series of one general-leaderboard entity. -/
def entityNotesG (df : List GradeRecord)
    (k : String × String × String × String × String × String) :
    List (Option ℚ) :=
  notesOf (df.filter (fun r => entityKey r = k))

/-- The per-entity mean `groupby(...)["note"].mean()` of the general
leaderboard: `none` (pandas `NaN`) when the entity's notes are all
null. -/
def entityMeanG (df : List GradeRecord)
    (k : String × String × String × String × String × String) : Option ℚ :=
  seriesMean (entityNotesG df k)

/-- One row of the general leaderboard after ranking. -/
structure GenRankRow where
  student_id : String
  nom : String
  prenom : String
  departement : String
  filiere : String
  niveau : String
  moyenne : ℚ
  rang : ℕ
  deriving DecidableEq

/-- The pre-sort rows of `classement_general`: one row per distinct entity
with its mean and its dense rank (1 + number of strictly greater distinct
means). `getD 0` is only evaluated under the all-means-present guard of
`classementGeneral`, where it equals the actual mean. -/
def genRows (df : List GradeRecord) : List GenRankRow :=
  let keys := entitiesG df
  let means := keys.map (fun k => (entityMeanG df k).getD 0)
  keys.map (fun k =>
    let m := (entityMeanG df k).getD 0
    { student_id := k.1, nom := k.2.1, prenom := k.2.2.1,
      departement := k.2.2.2.1, filiere := k.2.2.2.2.1,
      niveau := k.2.2.2.2.2, moyenne := m,
      rang := 1 + cntGreaterDistinct means m })

/-- `sort_values("rang")` of the general leaderboard. -/
def sortByRang (rows : List GenRankRow) : List GenRankRow :=
  sortBy (fun a b => decide (a.rang ≤ b.rang)) rows

/-- `classement_general` of `src/api/main.py` (lines 183–198): group by
the six-column entity key, take the per-entity mean, dense-rank it
descending, `astype(int)` — which raises on any `NaN` rank, i.e. on any
all-null entity, modelled as `none` — sort by rank, and apply
`if limit: classement.head(limit)` (Python truthiness: `None` and `0`
both skip the truncation). -/
def classementGeneral (df : List GradeRecord) (limit : Option ℕ) :
    Option (List GenRankRow) :=
  if (entitiesG df).all (fun k => (entityMeanG df k).isSome) then
    let sorted := sortByRang (genRows df)
    some (match limit with
      | none => sorted
      | some l => if l = 0 then sorted else sorted.take l)
  else none

/-- `classement_top` of `src/api/main.py` (lines 288–302): the identical
pipeline to `classement_general` without a limit, then
`.sort_values("rang").head(n)`. -/
def classementTop (df : List GradeRecord) (n : ℕ) :
    Option (List GenRankRow) :=
  (classementGeneral df none).map (fun rows => rows.take n)

/-- The grouping key of `classement_departement`:
`["departement", "student_id", "nom", "prenom"]`. -/
def deptKey (r : GradeRecord) : String × String × String × String :=
  (r.departement, r.student_id, r.nom, r.prenom)

/-- The optional department filter of `classement_departement`; Python's
`if departement:` treats the empty string like `None`. -/
def applyDeptFilter (df : List GradeRecord) (f : Option String) :
    List GradeRecord :=
  match f with
  | none => df
  | some d => if d = "" then df else df.filter (fun r => r.departement = d)

/-- The distinct entities of the per-department leaderboard. -/
def deptKeysOf (data : List GradeRecord) :
    List (String × String × String × String) :=
  (data.map deptKey).dedup

/-- The `note` series of one per-department-leaderboard entity. -/
def deptEntityNotes (data : List GradeRecord)
    (k : String × String × String × String) : List (Option ℚ) :=
  notesOf (data.filter (fun r => deptKey r = k))

/-- The per-entity mean of the per-department leaderboard. -/
def deptEntityMean (data : List GradeRecord)
    (k : String × String × String × String) : Option ℚ :=
  seriesMean (deptEntityNotes data k)

/-- One row of the per-department leaderboard after ranking. -/
structure DeptRankRow where
  departement : String
  student_id : String
  nom : String
  prenom : String
  moyenne : ℚ
  rang : ℕ
  deriving DecidableEq

/-- The pre-sort rows of `classement_departement`: the dense rank is
computed within each department partition
(`classement.groupby("departement")["moyenne"].rank(...)`). -/
def deptRows (data : List GradeRecord) : List DeptRankRow :=
  let keys := deptKeysOf data
  keys.map (fun k =>
    let m := (deptEntityMean data k).getD 0
    let partMeans := (keys.filter (fun k2 => k2.1 = k.1)).map
      (fun k2 => (deptEntityMean data k2).getD 0)
    { departement := k.1, student_id := k.2.1, nom := k.2.2.1,
      prenom := k.2.2.2, moyenne := m,
      rang := 1 + cntGreaterDistinct partMeans m })

/-- `sort_values(["departement", "rang"])`. -/
def sortDeptRang (rows : List DeptRankRow) : List DeptRankRow :=
  sortBy (fun a b =>
    decide (a.departement < b.departement) ||
      (decide (a.departement = b.departement) && decide (a.rang ≤ b.rang)))
    rows

/-- Pandas `classement.groupby("departement").head(limit)`: keep each row
whose running index within its department is below `limit`, preserving
the row order. `counts` carries how many rows of each department have
already been kept. -/
def groupHeadAux (limit : ℕ) (counts : String → ℕ) :
    List DeptRankRow → List DeptRankRow
  | [] => []
  | r :: rs =>
      if counts r.departement < limit then
        r :: groupHeadAux limit
          (fun d => if d = r.departement then counts d + 1 else counts d) rs
      else groupHeadAux limit counts rs

/-- `groupby("departement").head(limit)` starting from empty counts. -/
def groupHead (limit : ℕ) (rows : List DeptRankRow) : List DeptRankRow :=
  groupHeadAux limit (fun _ => 0) rows

/-- `classement_departement` of `src/api/main.py` (lines 201–226):
optional department filter, group by the four-column key, per-entity
mean, dense rank within each department partition, `astype(int)`
(raising on `NaN`, modelled as `none`), sort by `(departement, rang)`,
then `if limit: classement.groupby("departement").head(limit)`. -/
def classementDepartement (df : List GradeRecord) (f : Option String)
    (limit : Option ℕ) : Option (List DeptRankRow) :=
  let data := applyDeptFilter df f
  if (deptKeysOf data).all (fun k => (deptEntityMean data k).isSome) then
    let sorted := sortDeptRang (deptRows data)
    some (match limit with
      | none => sorted
      | some l => if l = 0 then sorted else groupHead l sorted)
  else none

/-! Helper lemmas about the embedded operations. -/

lemma nonNull_map_some (ys : List ℚ) : nonNull (ys.map some) = ys := by
  induction ys with
  | nil => rfl
  | cons y t ih => simp [nonNull, ih]

lemma countP_isPass_eq (xs : List (Option ℚ)) :
    xs.countP isPass = ((nonNull xs).filter (fun v => decide (10 ≤ v))).length := by
  induction xs with
  | nil => rfl
  | cons x t ih =>
      cases x with
      | none => simp [List.countP_cons, isPass, nonNull, ih]
      | some v =>
          by_cases hv : (10 : ℚ) ≤ v
          · simp [List.countP_cons, isPass, nonNull, List.filter_cons, hv, ih]
          · simp [List.countP_cons, isPass, nonNull, List.filter_cons, hv, ih]

lemma length_insertBy {α : Type} (le : α → α → Bool) (a : α) (l : List α) :
    (insertBy le a l).length = l.length + 1 := by
  induction l with
  | nil => rfl
  | cons b t ih =>
      by_cases h : le a b
      · simp [insertBy, h]
      · simp [insertBy, h, ih]

lemma length_sortBy {α : Type} (le : α → α → Bool) (l : List α) :
    (sortBy le l).length = l.length := by
  induction l with
  | nil => rfl
  | cons a t ih => simp [sortBy, length_insertBy, ih]

lemma mem_insertBy {α : Type} (le : α → α → Bool) (a b : α) (l : List α) :
    b ∈ insertBy le a l ↔ b = a ∨ b ∈ l := by
  induction l with
  | nil => simp [insertBy]
  | cons c t ih =>
      by_cases h : le a c
      · simp [insertBy, h]
      · simp [insertBy, h, ih]
        tauto

lemma mem_sortBy {α : Type} (le : α → α → Bool) (b : α) (l : List α) :
    b ∈ sortBy le l ↔ b ∈ l := by
  induction l with
  | nil => simp [sortBy]
  | cons a t ih => simp [sortBy, mem_insertBy, ih]

lemma cntGreaterDistinct_lt_card {scores : List ℚ} {s : ℚ} (hs : s ∈ scores) :
    cntGreaterDistinct scores s < scores.toFinset.card := by
  apply Finset.card_lt_card
  exact Finset.filter_ssubset.mpr ⟨s, List.mem_toFinset.mpr hs, lt_irrefl s⟩

lemma cntGreaterDistinct_anti {scores : List ℚ} {s t : ℚ} (ht : t ∈ scores)
    (hlt : s < t) : cntGreaterDistinct scores t < cntGreaterDistinct scores s := by
  apply Finset.card_lt_card
  rw [Finset.ssubset_iff_of_subset]
  · exact ⟨t, Finset.mem_filter.mpr ⟨List.mem_toFinset.mpr ht, hlt⟩,
      fun hmem => lt_irrefl t (Finset.mem_filter.mp hmem).2⟩
  · intro w hw
    rcases Finset.mem_filter.mp hw with ⟨hw1, hw2⟩
    exact Finset.mem_filter.mpr ⟨hw1, lt_trans hlt hw2⟩

lemma exists_cnt_eq (S : Finset ℚ) :
    ∀ j : ℕ, j < S.card → ∃ v ∈ S, (S.filter (fun w => v < w)).card = j := by
  induction S using Finset.strongInduction with
  | _ S ih =>
      intro j hj
      have hS : S.Nonempty := Finset.card_pos.mp (Nat.lt_of_le_of_lt (Nat.zero_le j) hj)
      cases j with
      | zero =>
          refine ⟨S.max' hS, S.max'_mem hS, ?_⟩
          rw [Finset.card_eq_zero, Finset.filter_eq_empty_iff]
          intro w hw
          exact not_lt.mpr (S.le_max' w hw)
      | succ j =>
          have hm : S.max' hS ∈ S := S.max'_mem hS
          have hcard : (S.erase (S.max' hS)).card = S.card - 1 :=
            Finset.card_erase_of_mem hm
          have hj2 : j < (S.erase (S.max' hS)).card := by omega
          obtain ⟨v, hv, hcnt⟩ := ih (S.erase (S.max' hS)) (Finset.erase_ssubset hm) j hj2
          have hvS : v ∈ S := Finset.mem_of_mem_erase hv
          have hvm : v < S.max' hS :=
            lt_of_le_of_ne (S.le_max' v hvS) (Finset.ne_of_mem_erase hv)
          refine ⟨v, hvS, ?_⟩
          have hins : S.filter (fun w => v < w)
              = insert (S.max' hS) ((S.erase (S.max' hS)).filter (fun w => v < w)) := by
            ext w
            simp only [Finset.mem_filter, Finset.mem_insert, Finset.mem_erase]
            constructor
            · rintro ⟨hwS, hvw⟩
              by_cases hwm : w = S.max' hS
              · exact Or.inl hwm
              · exact Or.inr ⟨⟨hwm, hwS⟩, hvw⟩
            · rintro (rfl | ⟨⟨hwm, hwS⟩, hvw⟩)
              · exact ⟨hm, hvm⟩
              · exact ⟨hwS, hvw⟩
          rw [hins, Finset.card_insert_of_not_mem, hcnt]
          simp [Finset.mem_filter]

lemma groupHeadAux_filter (limit : ℕ) (rows : List DeptRankRow) :
    ∀ (counts : String → ℕ) (p : String),
      (groupHeadAux limit counts rows).filter (fun r => r.departement = p)
        = (rows.filter (fun r => r.departement = p)).take (limit - counts p) := by
  induction rows with
  | nil => intro counts p; simp [groupHeadAux]
  | cons r rs ih =>
      intro counts p
      rw [groupHeadAux]
      by_cases hcp : counts r.departement < limit
      · rw [if_pos hcp]
        by_cases hdp : r.departement = p
        · subst hdp
          have hsub : limit - counts r.departement
              = (limit - (counts r.departement + 1)) + 1 := by omega
          simp [List.filter_cons, ih, hsub, List.take_succ_cons]
        · have hpd : ¬ p = r.departement := fun h => hdp h.symm
          simp [List.filter_cons, hdp, hpd, ih]
      · rw [if_neg hcp]
        by_cases hdp : r.departement = p
        · subst hdp
          have hz : limit - counts r.departement = 0 := by omega
          simp [List.filter_cons, ih, hz]
        · simp [List.filter_cons, hdp, ih]

lemma groupHead_filter (limit : ℕ) (rows : List DeptRankRow) (p : String) :
    (groupHead limit rows).filter (fun r => r.departement = p)
      = (rows.filter (fun r => r.departement = p)).take limit := by
  rw [groupHead, groupHeadAux_filter, Nat.sub_zero]

/-! Sample rows used by the concrete witnesses and counterexamples below. -/

/-- A row of department `GC` with score 10. -/
def rec1 : GradeRecord :=
  ⟨"S1", "A", "AA", "M", ⟨2003, 5, 10⟩, "GC", "GC-A", "L3", "UE1", "Mme K", some 10⟩

/-- A row of department `GC` with a missing score. -/
def rec2 : GradeRecord :=
  ⟨"S2", "B", "BB", "F", ⟨2004, 1, 2⟩, "GC", "GC-A", "L3", "UE1", "Mme K", none⟩

/-- A row of department `GC` with score 8. -/
def rec3 : GradeRecord :=
  ⟨"S3", "C", "CC", "M", ⟨2002, 11, 30⟩, "GC", "GC-B", "L3", "UE2", "M. L", some 8⟩

/-- A second row with the same `student_id` as `rec1` but a different
`filiere`, with score 14. -/
def rec1b : GradeRecord :=
  ⟨"S1", "A", "AA", "M", ⟨2003, 5, 10⟩, "GC", "GC-Z", "L3", "UE3", "M. L", some 14⟩

/-! Claim theorems. -/

/-- Claim C1, counterexample: the department group of `[rec1, rec2, rec3]`
has the note series `[10, null, 8]`, and the code computes its
`taux_reussite` as `100 * 1/3 ≈ 33.33` — the count of non-null passing
scores over the TOTAL row count of 3 — not the 50 % over the 2 non-null
values that the claim states. -/
theorem pass_rate_counterexample :
    deptNotes [rec1, rec2, rec3] "GC" = [some 10, none, some 8]
    ∧ (statsDepartement [rec1, rec2, rec3]).map
        (fun s => (s.departement, s.taux_reussite)) = [("GC", some (100 / 3))]
    ∧ ¬ (100 / 3 : ℚ) = 50 := by
  refine ⟨by decide, ?_, by norm_num⟩
  simp +decide [statsDepartement, deptList, deptNotes, notesOf, rec1, rec2, rec3,
    passRate, isPass, List.dedup, List.filter_cons, List.countP, List.countP.go]

/-- Claim C1, amended: for every non-empty department group, `pass_rate`
equals the count of non-null scores `≥ 10` divided by the total row count
of the group (nulls included), times 100; a group whose scores are all
null therefore has pass rate 0. Every `taux_reussite` value produced by
`statsDepartement` is this quantity for the row's department group. -/
theorem pass_rate_over_total_rows (df : List GradeRecord) (d : String)
    (h : deptNotes df d ≠ []) :
    passRate (deptNotes df d)
      = some (100 * (((nonNull (deptNotes df d)).filter
            (fun v => decide (10 ≤ v))).length : ℚ) / ((deptNotes df d).length : ℚ))
    ∧ ((∀ x ∈ deptNotes df d, x = none) → passRate (deptNotes df d) = some 0)
    ∧ (∀ s ∈ statsDepartement df, s.taux_reussite = passRate (deptNotes df s.departement)) := by
  have hlen : ¬ (deptNotes df d).length = 0 := by
    simpa [List.length_eq_zero] using h
  refine ⟨?_, ?_, ?_⟩
  · rw [passRate, if_neg hlen, countP_isPass_eq]
  · intro hall
    have hcnt : (deptNotes df d).countP isPass = 0 := by
      rw [List.countP_eq_zero]
      intro x hx
      rw [hall x hx]
      decide
    rw [passRate, if_neg hlen, hcnt]
    norm_num
  · intro s hs
    rcases List.mem_map.mp hs with ⟨d2, _, rfl⟩
    rfl

/-- Claim C1, witness for the amended theorem: the all-null group of
`[rec2]` is non-empty and its pass rate is 0. -/
theorem pass_rate_over_total_rows_witness :
    passRate (deptNotes [rec2] "GC") = some 0 :=
  (pass_rate_over_total_rows [rec2] "GC" (by decide)).2.1 (by decide)

/-- Claim C2, counterexample: the teacher `"Mme X"` matches zero rows of
`[rec1, rec2, rec3]`, yet `stats_enseignant` returns a statistics payload
(null mean, std and pass rate, count 0) — not a structured not-found
result — while the student endpoint does return the structured error for
an unknown student. -/
theorem not_found_counterexample :
    List.filter (fun r => r.enseignant = "Mme X") [rec1, rec2, rec3] = []
    ∧ statsEnseignant [rec1, rec2, rec3] "Mme X" = ⟨"Mme X", none, none, none, 0⟩
    ∧ getEtudiant [rec1, rec2, rec3] "S9" = .error "Étudiant S9 non trouvé" := by
  refine ⟨by decide, ?_, ?_⟩
  · simp +decide [statsEnseignant, filterEnseignant, rec1, rec2, rec3, notesOf,
      seriesMean, seriesVarSample, passRate, nonNull, List.filter_cons]
  · simp +decide [getEtudiant, rec1, rec2, rec3, List.filter_cons]

/-- Claim C2, amended: only the student endpoints return a structured
not-found result on a zero-row filter; the teacher and course statistics
endpoints perform no zero-row check and return a statistics payload whose
numeric metrics are all null (with row count 0 for the teacher). -/
theorem not_found_student_only (df : List GradeRecord) (sid e u : String) :
    (df.filter (fun r => r.student_id = sid) = [] →
      getEtudiant df sid = .error ("Étudiant " ++ sid ++ " non trouvé"))
    ∧ (filterEnseignant df e = [] →
      statsEnseignant df e = ⟨e, none, none, none, 0⟩)
    ∧ (df.filter (fun r => r.ue = u) = [] →
      statsUe df u = ⟨u, none, none, none⟩) := by
  refine ⟨?_, ?_, ?_⟩
  · intro h
    rw [getEtudiant]
    simp only [h]
  · intro h
    rw [statsEnseignant]
    simp only [h]
    rfl
  · intro h
    rw [statsUe]
    simp only [h]
    rfl

/-- Claim C2, witness for the amended theorem: concrete zero-match
student, teacher and course queries. -/
theorem not_found_student_only_witness :
    getEtudiant [rec1] "S9" = .error ("Étudiant " ++ "S9" ++ " non trouvé")
    ∧ statsEnseignant [rec1] "Mme X" = ⟨"Mme X", none, none, none, 0⟩
    ∧ statsUe [rec1] "UE9" = ⟨"UE9", none, none, none⟩ :=
  ⟨(not_found_student_only [rec1] "S9" "Mme X" "UE9").1 (by decide),
    (not_found_student_only [rec1] "S9" "Mme X" "UE9").2.1 (by decide),
    (not_found_student_only [rec1] "S9" "Mme X" "UE9").2.2 (by decide)⟩

/-- Claim C5: the `nombre_notes` count of the teacher statistics is the
full row count of the filtered group, nulls included, while the mean
skips nulls — adding or removing null entries never changes `seriesMean`
— and on the scenario series `[10, null, 8]` the count is 3 and the mean
is 9 (not 6). -/
theorem count_total_mean_nonnull (df : List GradeRecord) (e : String) :
    (statsEnseignant df e).nombre_notes = (filterEnseignant df e).length
    ∧ (statsEnseignant df e).moyenne = seriesMean (notesOf (filterEnseignant df e))
    ∧ (∀ xs : List (Option ℚ), seriesMean xs = seriesMean ((nonNull xs).map some))
    ∧ seriesMean [some 10, none, some 8] = some 9
    ∧ [some (10 : ℚ), none, some 8].length = 3 := by
  refine ⟨rfl, rfl, ?_, ?_, rfl⟩
  · intro xs
    simp only [seriesMean, nonNull_map_some]
  · norm_num [seriesMean, nonNull]

/-- Claim C6: a teacher group with fewer than two non-null scores has a
null `ecart_type` (sample standard deviation) in the statistics payload —
an explicit no-value, never a fabricated 0, and the total function
`statsEnseignant` never throws. -/
theorem stddev_undefined_small (df : List GradeRecord) (e : String)
    (h : (nonNull (notesOf (filterEnseignant df e))).length < 2) :
    (statsEnseignant df e).ecart_type = none
    ∧ (statsEnseignant df e).ecart_type ≠ some 0 := by
  have hnone : (statsEnseignant df e).ecart_type = none := by
    show seriesVarSample (notesOf (filterEnseignant df e)) = none
    simp [seriesVarSample, h]
  refine ⟨hnone, ?_⟩
  rw [hnone]
  exact fun hc => Option.noConfusion hc

/-- Claim C6, witness: the single-row group of `"Mme K"` in `[rec1]` has
one non-null score and a null standard deviation. -/
theorem stddev_undefined_small_witness :
    (nonNull (notesOf (filterEnseignant [rec1] "Mme K"))).length < 2
    ∧ (statsEnseignant [rec1] "Mme K").ecart_type = none :=
  ⟨by decide, (stddev_undefined_small [rec1] "Mme K" (by decide)).1⟩

/-- Claim C7: the age bands are half-open on the right over the edges
`[17, 20, 23, 26, 30]` — a value lands in band i exactly when
`edges[i] < value ≤ edges[i+1]` — values `≤ 17`, values `> 30` and null
are unbanded, every in-range value lands in some labeled band, and the
boundary scenarios `bucket(20) = "18-20"` and `bucket(17) = unbanded`
hold. -/
theorem age_band_half_open (v : ℤ) :
    (trancheAge (some v) = some "18-20" ↔ 17 < v ∧ v ≤ 20)
    ∧ (trancheAge (some v) = some "21-23" ↔ 20 < v ∧ v ≤ 23)
    ∧ (trancheAge (some v) = some "24-26" ↔ 23 < v ∧ v ≤ 26)
    ∧ (trancheAge (some v) = some "27+" ↔ 26 < v ∧ v ≤ 30)
    ∧ (v ≤ 17 → trancheAge (some v) = none)
    ∧ (30 < v → trancheAge (some v) = none)
    ∧ (17 < v ∧ v ≤ 30 → ¬ trancheAge (some v) = none)
    ∧ trancheAge none = none
    ∧ trancheAge (some 20) = some "18-20"
    ∧ trancheAge (some 17) = none := by
  have hcut : trancheAge (some v)
      = (if 17 < v ∧ v ≤ 20 then some "18-20"
        else if 20 < v ∧ v ≤ 23 then some "21-23"
        else if 23 < v ∧ v ≤ 26 then some "24-26"
        else if 26 < v ∧ v ≤ 30 then some "27+" else none) := by
    simp [trancheAge, ageBins, ageLabels, cut]
  refine ⟨?_, ?_, ?_, ?_, ?_, ?_, ?_, by decide, by decide, by decide⟩ <;>
    rw [hcut] <;> split_ifs <;> simp_all <;> omega

/-- Claim C7, witness: instances of the hypotheses of the band theorem at
ages 10 and 35 (both unbanded). -/
theorem age_band_half_open_witness :
    trancheAge (some 10) = none ∧ trancheAge (some 35) = none :=
  ⟨(age_band_half_open 10).2.2.2.2.1 (by omega),
    (age_band_half_open 35).2.2.2.2.2.1 (by omega)⟩

/-- Claim C8: the derived age is `reference.year - birth.year`, minus one
exactly when the reference (month, day) pair is lexicographically before
the birth (month, day) pair — the birthday has not yet occurred in the
reference year — and the deployed `age` column uses the fixed reference
date 2025-09-01. -/
theorem age_reference_year_adjustment (today d : PyDate) :
    computeAge today d
      = (if today.month < d.month ∨ (today.month = d.month ∧ today.day < d.day)
          then today.year - d.year - 1 else today.year - d.year)
    ∧ ageOf d = computeAge referenceDate d := by
  constructor
  · rw [computeAge]
    by_cases h : today.month < d.month ∨ (today.month = d.month ∧ today.day < d.day)
    · rw [if_pos h, if_pos]
      simpa [monthDayLt] using h
    · rw [if_neg h, if_neg]
      · ring
      · simpa [monthDayLt] using h
  · rfl

lemma zip_self_map {α β : Type} (f : α → β) (l : List α) :
    l.zip (l.map f) = l.map (fun a => (a, f a)) := by
  induction l with
  | nil => rfl
  | cons a t ih => simp [ih]

/-- Claim C3: pandas dense rank (descending) over the mean scores of a
partition pairs every score with `1 +` the number of strictly greater
distinct scores; the set of produced ranks is exactly the contiguous
range from 1 to the number of distinct scores (no gaps); and two scores
receive the same rank exactly when they are equal. -/
theorem dense_rank_properties (scores : List ℚ) :
    (∀ p ∈ scores.zip (denseRankDesc scores),
      p.2 = 1 + cntGreaterDistinct scores p.1)
    ∧ (∀ k : ℕ, k ∈ denseRankDesc scores ↔ 1 ≤ k ∧ k ≤ scores.toFinset.card)
    ∧ (∀ p ∈ scores.zip (denseRankDesc scores),
      ∀ q ∈ scores.zip (denseRankDesc scores), (p.2 = q.2 ↔ p.1 = q.1)) := by
  have hzip : scores.zip (denseRankDesc scores)
      = scores.map (fun s => (s, 1 + cntGreaterDistinct scores s)) := by
    rw [denseRankDesc, zip_self_map]
  refine ⟨?_, ?_, ?_⟩
  · intro p hp
    rw [hzip] at hp
    rcases List.mem_map.mp hp with ⟨s, _, rfl⟩
    rfl
  · intro k
    constructor
    · intro hk
      rw [denseRankDesc] at hk
      rcases List.mem_map.mp hk with ⟨s, hs, rfl⟩
      have := cntGreaterDistinct_lt_card hs
      omega
    · rintro ⟨hk1, hk2⟩
      obtain ⟨j, rfl⟩ : ∃ j, k = j + 1 := ⟨k - 1, by omega⟩
      have hj : j < scores.toFinset.card := by omega
      obtain ⟨v, hv, hcnt⟩ := exists_cnt_eq scores.toFinset j hj
      rw [denseRankDesc]
      refine List.mem_map.mpr ⟨v, List.mem_toFinset.mp hv, ?_⟩
      simp only [cntGreaterDistinct, hcnt]
      omega
  · intro p hp q hq
    rw [hzip] at hp hq
    rcases List.mem_map.mp hp with ⟨s, hs, rfl⟩
    rcases List.mem_map.mp hq with ⟨t, ht, rfl⟩
    simp only
    constructor
    · intro h
      have h2 : 1 + cntGreaterDistinct scores s = 1 + cntGreaterDistinct scores t := h
      by_contra hne
      rcases lt_trichotomy s t with hlt | heq | hgt
      · have := cntGreaterDistinct_anti ht hlt
        omega
      · exact hne heq
      · have := cntGreaterDistinct_anti hs hgt
        omega
    · intro h
      rw [h]

/-- Claim C3, witness: in the partition with mean scores
`[15, 12, 15]` (two distinct values) the rank 2 is attained. -/
theorem dense_rank_properties_witness : 2 ∈ denseRankDesc [15, 12, 15] :=
  ((dense_rank_properties [15, 12, 15]).2.1 2).mpr (by decide)

/-- Claim C10: when every leaderboard entity has at least one non-null
score, the general-leaderboard pipeline (dense rank then `astype(int)`)
succeeds and every produced rank is a positive integer; when some
entity's scores are all null, its mean — and hence its rank — is `NaN`
and the integer conversion raises instead of producing rows (modelled as
`none`). -/
theorem rank_cast_total_or_raises (df : List GradeRecord) :
    ((∀ k ∈ entitiesG df, (entityMeanG df k).isSome = true) →
      ∃ rows, classementGeneral df none = some rows ∧ ∀ r ∈ rows, 1 ≤ r.rang)
    ∧ ((∃ k ∈ entitiesG df, entityMeanG df k = none) →
      classementGeneral df none = none) := by
  constructor
  · intro h
    have hall : (entitiesG df).all (fun k => (entityMeanG df k).isSome) = true :=
      List.all_eq_true.mpr h
    refine ⟨sortByRang (genRows df), ?_, ?_⟩
    · rw [classementGeneral, if_pos hall]
    · intro r hr
      rw [sortByRang, mem_sortBy] at hr
      simp only [genRows] at hr
      rcases List.mem_map.mp hr with ⟨k, _, rfl⟩
      show 1 ≤ 1 + _
      omega
  · rintro ⟨k, hk, hnone⟩
    have hnall : ¬ ((entitiesG df).all (fun k => (entityMeanG df k).isSome) = true) := by
      intro hall
      have hk2 := List.all_eq_true.mp hall k hk
      rw [hnone] at hk2
      exact Bool.noConfusion hk2
    rw [classementGeneral, if_neg hnall]

/-- Claim C10, witness: the pipeline succeeds with positive ranks on the
all-scores-present table `[rec1]` and fails on `[rec2]`, whose only
entity has a null score. -/
theorem rank_cast_total_or_raises_witness :
    (∃ rows, classementGeneral [rec1] none = some rows ∧ ∀ r ∈ rows, 1 ≤ r.rang)
    ∧ classementGeneral [rec2] none = none :=
  ⟨(rank_cast_total_or_raises [rec1]).1 (by decide),
    (rank_cast_total_or_raises [rec2]).2 ⟨entityKey rec2, by decide, by decide⟩⟩

/-- Claim C4: when a limit is given to the per-department leaderboard,
the retained rows of each department are exactly the first `limit` rows
of that department after sorting — a row-based cut that can fall inside a
tie group — and the top-N query over the single global partition returns
exactly `min n entityCount` rows. -/
theorem limit_keeps_first_rows (df : List GradeRecord) (f : Option String)
    (l : ℕ) (p : String) (n : ℕ) :
    (∀ out full, 1 ≤ l →
      classementDepartement df f (some l) = some out →
      classementDepartement df f none = some full →
      out.filter (fun r => r.departement = p)
        = (full.filter (fun r => r.departement = p)).take l)
    ∧ (∀ rows, classementTop df n = some rows →
      rows.length = min n (entitiesG df).length) := by
  constructor
  · intro out full hl hsome hnone2
    by_cases hc : (deptKeysOf (applyDeptFilter df f)).all
        (fun k => (deptEntityMean (applyDeptFilter df f) k).isSome) = true
    · simp only [classementDepartement, if_pos hc] at hsome hnone2
      have hl0 : ¬ l = 0 := by omega
      rw [if_neg hl0] at hsome
      have hout : groupHead l (sortDeptRang (deptRows (applyDeptFilter df f))) = out :=
        Option.some_inj.mp hsome
      have hfull : sortDeptRang (deptRows (applyDeptFilter df f)) = full :=
        Option.some_inj.mp hnone2
      rw [← hout, ← hfull, groupHead_filter]
    · simp only [classementDepartement, if_neg hc] at hsome
      exact Option.noConfusion hsome
  · intro rows htop
    rw [classementTop] at htop
    rcases Option.map_eq_some'.mp htop with ⟨s, hgen, rfl⟩
    by_cases hc : (entitiesG df).all (fun k => (entityMeanG df k).isSome) = true
    · rw [classementGeneral, if_pos hc] at hgen
      have hs : sortByRang (genRows df) = s := Option.some_inj.mp hgen
      rw [← hs, List.length_take, sortByRang, length_sortBy]
      simp [genRows]
    · rw [classementGeneral, if_neg hc] at hgen
      exact Option.noConfusion hgen

/-- Claim C4, witness: on the one-row table `[rec1]` the limited
per-department leaderboard keeps the first row of the `GC` partition and
the top-1 query returns `min 1 1` rows. -/
theorem limit_keeps_first_rows_witness :
    classementDepartement [rec1] none (some 1)
      = some [⟨"GC", "S1", "A", "AA", 10, 1⟩]
    ∧ ([(⟨"GC", "S1", "A", "AA", 10, 1⟩ : DeptRankRow)].filter
        (fun r => r.departement = "GC"))
      = (([(⟨"GC", "S1", "A", "AA", 10, 1⟩ : DeptRankRow)].filter
        (fun r => r.departement = "GC")).take 1)
    ∧ ∃ rows, classementTop [rec1] 1 = some rows
        ∧ rows.length = min 1 (entitiesG [rec1]).length := by
  have hsome : classementDepartement [rec1] none (some 1)
      = some [⟨"GC", "S1", "A", "AA", 10, 1⟩] := by
    simp +decide [classementDepartement, applyDeptFilter, deptKeysOf, deptKey,
      deptEntityMean, deptEntityNotes, rec1, notesOf, seriesMean, nonNull,
      List.dedup, deptRows, sortDeptRang, sortBy, insertBy, groupHead,
      groupHeadAux, cntGreaterDistinct, List.filter_cons,
      Finset.filter_insert, Finset.filter_singleton]
  have hnone2 : classementDepartement [rec1] none none
      = some [⟨"GC", "S1", "A", "AA", 10, 1⟩] := by
    simp +decide [classementDepartement, applyDeptFilter, deptKeysOf, deptKey,
      deptEntityMean, deptEntityNotes, rec1, notesOf, seriesMean, nonNull,
      List.dedup, deptRows, sortDeptRang, sortBy, insertBy,
      cntGreaterDistinct, List.filter_cons,
      Finset.filter_insert, Finset.filter_singleton]
  have htop : classementTop [rec1] 1
      = some [⟨"S1", "A", "AA", "GC", "GC-A", "L3", 10, 1⟩] := by
    simp +decide [classementTop, classementGeneral, entitiesG, entityKey,
      entityMeanG, entityNotesG, rec1, notesOf, seriesMean, nonNull, List.dedup,
      genRows, sortByRang, sortBy, insertBy, cntGreaterDistinct,
      List.filter_cons, Finset.filter_insert, Finset.filter_singleton]
  exact ⟨hsome,
    (limit_keeps_first_rows [rec1] none 1 "GC" 1).1 _ _ (by omega) hsome hnone2,
    ⟨_, htop, (limit_keeps_first_rows [rec1] none 1 "GC" 1).2 _ htop⟩⟩

/-- Claim C9: leaderboard entity identity is the full six-column grouping
tuple, not `student_id` alone — two rows sharing a `student_id` but
differing in any of the other key columns are distinct entities of the
general leaderboard, and each contributes its note to its own entity's
score series. -/
theorem entity_identity_full_tuple (df : List GradeRecord) (r1 r2 : GradeRecord)
    (h1 : r1 ∈ df) (h2 : r2 ∈ df) (_hid : r1.student_id = r2.student_id)
    (hdiff : r1.nom ≠ r2.nom ∨ r1.prenom ≠ r2.prenom
      ∨ r1.departement ≠ r2.departement ∨ r1.filiere ≠ r2.filiere
      ∨ r1.niveau ≠ r2.niveau) :
    entityKey r1 ≠ entityKey r2
    ∧ entityKey r1 ∈ entitiesG df
    ∧ entityKey r2 ∈ entitiesG df
    ∧ r1.note ∈ entityNotesG df (entityKey r1)
    ∧ r2.note ∈ entityNotesG df (entityKey r2) := by
  refine ⟨?_, ?_, ?_, ?_, ?_⟩
  · intro hk
    rw [entityKey, entityKey, Prod.mk.injEq, Prod.mk.injEq, Prod.mk.injEq,
      Prod.mk.injEq, Prod.mk.injEq] at hk
    rcases hdiff with h | h | h | h | h <;> tauto
  · exact List.mem_dedup.mpr (List.mem_map_of_mem entityKey h1)
  · exact List.mem_dedup.mpr (List.mem_map_of_mem entityKey h2)
  · rw [entityNotesG, notesOf]
    exact List.mem_map_of_mem _ (List.mem_filter.mpr ⟨h1, by simp⟩)
  · rw [entityNotesG, notesOf]
    exact List.mem_map_of_mem _ (List.mem_filter.mpr ⟨h2, by simp⟩)

/-- Claim C9, witness: `rec1` and `rec1b` share `student_id` `"S1"` but
differ in `filiere`, and are distinct entities of `[rec1, rec1b]`. -/
theorem entity_identity_full_tuple_witness :
    entityKey rec1 ≠ entityKey rec1b
    ∧ entityKey rec1 ∈ entitiesG [rec1, rec1b]
    ∧ entityKey rec1b ∈ entitiesG [rec1, rec1b]
    ∧ rec1.note ∈ entityNotesG [rec1, rec1b] (entityKey rec1)
    ∧ rec1b.note ∈ entityNotesG [rec1, rec1b] (entityKey rec1b) :=
  entity_identity_full_tuple [rec1, rec1b] rec1 rec1b (by decide) (by decide)
    (by decide) (by decide)

end EplNotes
